import Mathlib

/-!
Shallow embedding of the tana-sync-gcal date-notation parser, event time
builder, event reconciliation service and output serialization.

Sources embedded:
* the handle-tana-date module (`TANA_DATE_REGEX`, `TANA_DATE_TIME_REGEX`,
  `validateTanaDateValue`, `extractTanaDateInfo`, `buildEventDateTimeInfo`);
* `src/api/events/service.ts` (`buildTanaPaste`, `updateEvent`).

JavaScript strings are modelled as Lean `String`; `undefined` fields are
`Option.none`; JS truthiness of a string is "not the empty string"; the
calendar collaborator (`google-calendar` utils, an external opaque service
per the spec) is an oracle record of functions, and the service is
instrumented with an explicit list of the collaborator calls it makes.
-/

/-- Line terminators that the JS regex `.` does not match. -/
def isLineTerminator (c : Char) : Bool :=
  c = '\n' || c = '\r' || c = '\u2028' || c = '\u2029'

/-- `s.startsWith p` of JS, expressed structurally over the char list. -/
def strStartsWith (s p : String) : Bool :=
  s.data.take p.data.length = p.data

/-- `s.endsWith p` of JS, expressed structurally over the char list. -/
def strEndsWith (s p : String) : Bool :=
  s.data.reverse.take p.data.length = p.data.reverse

/-- Helper for `splitSlash`: returns the current (first) chunk and the
remaining chunks of the char list split on `'/'`. -/
def splitOnSlashAux : List Char → List Char × List (List Char)
  | [] => ([], [])
  | c :: rest =>
    let r := splitOnSlashAux rest
    if c = '/' then ([], r.1 :: r.2) else (c :: r.1, r.2)

/-- JS `content.split('/')`: splits on every `'/'`, keeping empty chunks
(so `"a//b"` gives `["a", "", "b"]` and `"a/"` gives `["a", ""]`). -/
def splitSlash (s : String) : List String :=
  let r := splitOnSlashAux s.data
  (r.1 :: r.2).map String.mk

/-- Truthiness of JS `content.trim()`: true iff some character of the
string is not whitespace. -/
def jsTrimNonempty (content : String) : Bool :=
  content.data.any (fun c => !c.isWhitespace)

/-- Shape `\d{4}-\d{2}-\d{2}` as an exact match on a char list. -/
def isDateChars (l : List Char) : Bool :=
  match l with
  | [y1, y2, y3, y4, a, m1, m2, b, d1, d2] =>
    y1.isDigit && y2.isDigit && y3.isDigit && y4.isDigit && a = '-' &&
    m1.isDigit && m2.isDigit && b = '-' && d1.isDigit && d2.isDigit
  | _ => false

/-- Shape `T\d{2}:\d{2}` as an exact match on a char list. -/
def isTimeChars (l : List Char) : Bool :=
  match l with
  | [t, h1, h2, c, n1, n2] =>
    t = 'T' && h1.isDigit && h2.isDigit && c = ':' && n1.isDigit && n2.isDigit
  | _ => false

/-- `TANA_DATE_REGEX.test s` for `/^\d{4}-\d{2}-\d{2}$/`. -/
def TANA_DATE_REGEX_test (s : String) : Bool :=
  isDateChars s.data

/-- `TANA_DATE_TIME_REGEX.test s` for `/^\d{4}-\d{2}-\d{2}T\d{2}:\d{2}$/`:
the first ten characters form the date shape and the rest is exactly
`T\d{2}:\d{2}`. -/
def TANA_DATE_TIME_REGEX_test (s : String) : Bool :=
  isDateChars (s.data.take 10) && isTimeChars (s.data.drop 10)

/-- A token matching either of the two accepted patterns (the disjunction
the source writes inline at each use site). -/
def tokenValid (s : String) : Bool :=
  TANA_DATE_REGEX_test s || TANA_DATE_TIME_REGEX_test s

/-- Result of matching `/^\[\[date:(.+)\]\]$/` against `value` and taking
capture group 1: the characters strictly between the literal prefix
`[[date:` and the final `]]`, provided there is at least one such
character and none of them is a line terminator (JS `.` excludes line
terminators). -/
def tanaMatchContent (value : String) : Option String :=
  if strStartsWith value "[[date:" = true ∧ strEndsWith value "]]" = true ∧
      10 ≤ value.data.length then
    let content := String.mk ((value.data.drop 7).take (value.data.length - 9))
    if content.data.all (fun c => !isLineTerminator c) then some content else none
  else none

/-- The source's `validateTanaDateValue`: recognizes a well-formed Tana
date notation string. -/
def validateTanaDateValue (value : String) : Bool :=
  if !strStartsWith value "[[date:" || !strEndsWith value "]]" then false
  else
    match tanaMatchContent value with
    | none => false
    | some content =>
      if !jsTrimNonempty content then false
      else if !(content.data.contains '/') then
        TANA_DATE_REGEX_test content || TANA_DATE_TIME_REGEX_test content
      else
        let parts := splitSlash content
        let startPart := parts.getD 0 ""
        let endPart := parts.getD 1 ""
        if startPart = "" || endPart = "" then false
        else
          (TANA_DATE_REGEX_test startPart || TANA_DATE_TIME_REGEX_test startPart) &&
          (TANA_DATE_REGEX_test endPart || TANA_DATE_TIME_REGEX_test endPart)

/-- The source's `TanaDateInfo` (`end` is `endTok` since `end` is reserved
in Lean). -/
structure TanaDateInfo where
  original : String
  start : String
  endTok : Option String
deriving DecidableEq

/-- The source's `extractTanaDateInfo`: decomposes an (assumed valid)
notation into start/end tokens. JS `replace` with the anchored regex
leaves the string unchanged when the regex does not match. -/
def extractTanaDateInfo (date : String) : TanaDateInfo :=
  let content := (tanaMatchContent date).getD date
  if !(content.data.contains '/') then
    { original := date, start := content, endTok := none }
  else
    let parts := splitSlash content
    { original := date, start := parts.getD 0 "", endTok := some (parts.getD 1 "") }

/-- The backend's `Schema$EventDateTime` with its three optional fields.
The source's `EventDateTime` union populates exactly one of `date` /
`dateTime`, but the merge logic in the service reads both fields of
arbitrary backend values, so both are kept optional here. -/
structure EventDateTime where
  date : Option String
  dateTime : Option String
  timeZone : Option String
deriving DecidableEq

/-- The source's `EventDateTimeInfo` (`end` is `endPt`). -/
structure EventDateTimeInfo where
  start : EventDateTime
  endPt : EventDateTime
deriving DecidableEq

/-- The source's inner `createEventDateTime` of `buildEventDateTimeInfo`:
a thrown `Error` is modelled as `Except.error` of its message. -/
def createEventDateTime (timeZone dateTimeString : String) : Except String EventDateTime :=
  if TANA_DATE_TIME_REGEX_test dateTimeString then
    Except.ok { date := none, dateTime := some (dateTimeString ++ ":00"),
                timeZone := some timeZone }
  else if TANA_DATE_REGEX_test dateTimeString then
    Except.ok { date := some dateTimeString, dateTime := none,
                timeZone := some timeZone }
  else
    Except.error ("Invalid date/time format: " ++ dateTimeString)

/-- The source's `buildEventDateTimeInfo`. The end token is converted only
when present and truthy (`dateInfo?.end ?` in JS treats the empty string
as absent); otherwise the end point reuses the start point. -/
def buildEventDateTimeInfo (dateInfo : TanaDateInfo) (timeZone : String) :
    Except String EventDateTimeInfo :=
  match createEventDateTime timeZone dateInfo.start with
  | Except.error e => Except.error e
  | Except.ok start =>
    match dateInfo.endTok with
    | some e =>
      if e ≠ "" then
        match createEventDateTime timeZone e with
        | Except.error err => Except.error err
        | Except.ok endPt => Except.ok { start := start, endPt := endPt }
      else Except.ok { start := start, endPt := start }
    | none => Except.ok { start := start, endPt := start }

/-- The fields of the backend's event record that this system reads or
writes: title, description, location, id, URL, and the time range. All
backend fields are optional. -/
structure CalendarEvent where
  id : Option String
  htmlLink : Option String
  summary : Option String
  description : Option String
  location : Option String
  start : Option EventDateTime
  end_ : Option EventDateTime
deriving DecidableEq

/-- One `{ field, property }` pair of the output field-selection list. -/
structure FieldSpec where
  field : String
  property : String
deriving DecidableEq

/-- Dynamic `event[property]` lookup of `buildTanaPaste`, restricted to
the string-valued record properties (the only ones the output selection
lists of the repository name, besides the synthetic `calendarId`). Any
other property name resolves to `undefined`. -/
def lookupProp (event : CalendarEvent) (property : String) : Option String :=
  if property = "id" then event.id
  else if property = "htmlLink" then event.htmlLink
  else if property = "summary" then event.summary
  else if property = "description" then event.description
  else if property = "location" then event.location
  else none

/-- The source's `buildTanaPaste`: a fold over the selection list with the
running index; a field is emitted only when its resolved value is truthy,
and a newline is appended when the list has more than one entry and the
current index is not the last index. -/
def buildTanaPaste (event : CalendarEvent) (calendarId : String)
    (fieldsToReturn : List FieldSpec) : String :=
  fieldsToReturn.enum.foldl (fun acc p =>
    let index := p.1
    let fs := p.2
    let value : Option String :=
      if fs.property = "calendarId" then some calendarId
      else lookupProp event fs.property
    match value with
    | some v =>
      if v ≠ "" then
        acc ++ fs.field ++ "::" ++ v ++
          (if fieldsToReturn.length > 1 ∧ index ≠ fieldsToReturn.length - 1
           then "\n" else "")
      else acc
    | none => acc) ""

/-- The source's `PartialEventData`: every field optional; an absent field
is `none`. -/
structure PartialEventData where
  name : Option String
  date : Option TanaDateInfo
  description : Option String
  timeZone : Option String
  location : Option String
deriving DecidableEq

/-- The all-absent sparse field set. -/
def emptyPartialEventData : PartialEventData :=
  { name := none, date := none, description := none, timeZone := none,
    location := none }

/-- The calendar collaborator, an oracle of the capabilities the update
path consumes: `getEvent` may report not-found; per the spec the move and
update capabilities return the resulting record. -/
structure GC where
  getEvent : String → String → Option CalendarEvent
  moveEventToAnotherCalendar : String → String → String → CalendarEvent
  updateEvent : String → String → CalendarEvent → CalendarEvent

/-- One observable call into the calendar collaborator. -/
inductive CalCall where
  | get (calendarId eventId : String)
  | move (fromCalendarId eventId toCalendarId : String)
  | update (calendarId eventId : String) (payload : CalendarEvent)
deriving DecidableEq

/-- `data.timeZone || 'Etc/UTC'` of the update path: the incoming timezone
when present and truthy, else the fixed default. -/
def jsTimeZone (timeZone : Option String) : String :=
  match timeZone with
  | some tz => if tz ≠ "" then tz else "Etc/UTC"
  | none => "Etc/UTC"

/-- The three scalar-field merge steps of `updateEvent`: each incoming
value is copied over the record copy only when present and strictly
different (JS `!==`) from the record's current value. All comparisons are
against the fetched/moved record `event`, not the partially merged copy. -/
def mergeBasicFields (event : CalendarEvent) (data : PartialEventData) : CalendarEvent :=
  let u1 :=
    match data.name with
    | some n => if (some n : Option String) ≠ event.summary
                then { event with summary := some n } else event
    | none => event
  let u2 :=
    match data.description with
    | some d => if (some d : Option String) ≠ event.description
                then { u1 with description := some d } else u1
    | none => u1
  match data.location with
  | some l => if (some l : Option String) ≠ event.location
              then { u2 with location := some l } else u2
  | none => u2

/-- The start-comparison of the date merge: the rebuilt start differs from
the record's start in its `dateTime` or its `date` string (`timeZone` is
not compared). -/
def startDiffers (event : CalendarEvent) (b : EventDateTimeInfo) : Bool :=
  (b.start.dateTime != event.start.bind EventDateTime.dateTime) ||
  (b.start.date != event.start.bind EventDateTime.date)

/-- The end-comparison of the date merge: the rebuilt end differs from the
record's end in its `dateTime` or its `date` string (`timeZone` is not
compared). -/
def endDiffers (event : CalendarEvent) (b : EventDateTimeInfo) : Bool :=
  (b.endPt.dateTime != event.end_.bind EventDateTime.dateTime) ||
  (b.endPt.date != event.end_.bind EventDateTime.date)

/-- The date merge steps of `updateEvent`: when the rebuilt start differs
(per `startDiffers`) both the start and the end of the copy are replaced;
when the rebuilt end differs (per `endDiffers`) the end is replaced. -/
def mergeDate (event merged : CalendarEvent) (b : EventDateTimeInfo) : CalendarEvent :=
  let m1 :=
    if startDiffers event b then
      { merged with start := some b.start, end_ := some b.endPt }
    else merged
  if endDiffers event b then { m1 with end_ := some b.endPt } else m1

/-- The source's `updateEvent` service operation, instrumented with the
list of collaborator calls it performs. `fieldsToReturn` stands for the
`options.fieldsToReturn!` the serialization step reads (the only options
field this path uses; `prefix`/`suffix` are never applied on update). A
thrown error is `Except.error` of its message. The source's dead re-fetch
branch (`if (!event)` after a move) is unreachable here because the move
capability returns a record. -/
def updateEvent (gc : GC) (fromCalendarId eventId : String)
    (data : PartialEventData) (fieldsToReturn : List FieldSpec)
    (toCalendarId : Option String) : Except String String × List CalCall :=
  match gc.getEvent fromCalendarId eventId with
  | none => (Except.error ("Event not found: " ++ eventId),
             [CalCall.get fromCalendarId eventId])
  | some fetched =>
    let doMove : Bool :=
      match toCalendarId with
      | some toCal => (!(toCal == "")) && (!(toCal == fromCalendarId))
      | none => false
    let event1 : CalendarEvent :=
      if doMove then
        gc.moveEventToAnotherCalendar fromCalendarId eventId (toCalendarId.getD "")
      else fetched
    let currentCalendarId : String :=
      if doMove then toCalendarId.getD "" else fromCalendarId
    let trace1 : List CalCall :=
      if doMove then
        [CalCall.get fromCalendarId eventId,
         CalCall.move fromCalendarId eventId (toCalendarId.getD "")]
      else [CalCall.get fromCalendarId eventId]
    let hasFieldsToUpdate : Bool :=
      data.name.isSome || data.date.isSome || data.description.isSome ||
        data.timeZone.isSome || data.location.isSome
    if hasFieldsToUpdate then
      let merged := mergeBasicFields event1 data
      match data.date with
      | some di =>
        match buildEventDateTimeInfo di (jsTimeZone data.timeZone) with
        | Except.error e => (Except.error e, trace1)
        | Except.ok built =>
          let payload := mergeDate event1 merged built
          let final := gc.updateEvent currentCalendarId eventId payload
          (Except.ok (buildTanaPaste final currentCalendarId fieldsToReturn),
           trace1 ++ [CalCall.update currentCalendarId eventId payload])
      | none =>
        let final := gc.updateEvent currentCalendarId eventId merged
        (Except.ok (buildTanaPaste final currentCalendarId fieldsToReturn),
         trace1 ++ [CalCall.update currentCalendarId eventId merged])
    else
      (Except.ok (buildTanaPaste event1 currentCalendarId fieldsToReturn), trace1)


/-- A char list matching the date shape has exactly ten characters. -/
theorem isDateChars_length (l : List Char) (h : isDateChars l = true) :
    l.length = 10 := by
  unfold isDateChars at h
  split at h
  · simp_all
  · exact Bool.noConfusion h

/-- A token matching the date-only pattern cannot also match the
date-time pattern (it is too short). -/
theorem dateOnly_not_dateTime (s : String) (h : TANA_DATE_REGEX_test s = true) :
    TANA_DATE_TIME_REGEX_test s = false := by
  have hl : s.data.length = 10 := isDateChars_length s.data h
  unfold TANA_DATE_TIME_REGEX_test
  have hd : s.data.drop 10 = [] := List.drop_eq_nil_of_le (by omega)
  rw [hd]
  simp [isTimeChars]

/-- On a token matching neither pattern, `createEventDateTime` throws the
internal-consistency error naming the token. -/
theorem createEventDateTime_error_of_invalid (tz s : String)
    (h : tokenValid s = false) :
    createEventDateTime tz s = Except.error ("Invalid date/time format: " ++ s) := by
  unfold tokenValid at h
  obtain ⟨h1, h2⟩ : TANA_DATE_REGEX_test s = false ∧
      TANA_DATE_TIME_REGEX_test s = false := by simpa using h
  unfold createEventDateTime
  simp [h1, h2]

/-- On a token matching one of the two patterns, `createEventDateTime`
returns a point. -/
theorem createEventDateTime_ok_of_valid (tz s : String) (h : tokenValid s = true) :
    ∃ pt, createEventDateTime tz s = Except.ok pt := by
  unfold tokenValid at h
  rcases (by simpa using h :
      TANA_DATE_REGEX_test s = true ∨ TANA_DATE_TIME_REGEX_test s = true) with h1 | h2
  · refine ⟨{ date := some s, dateTime := none, timeZone := some tz }, ?_⟩
    unfold createEventDateTime
    rw [dateOnly_not_dateTime s h1]
    simp [h1]
  · refine ⟨{ date := none, dateTime := some (s ++ ":00"), timeZone := some tz }, ?_⟩
    unfold createEventDateTime
    simp [h2]

/-- The scalar-field merge never touches the record's start. -/
theorem mergeBasicFields_start (e : CalendarEvent) (d : PartialEventData) :
    (mergeBasicFields e d).start = e.start := by
  cases hn : d.name <;> cases hd : d.description <;> cases hl : d.location <;>
    simp only [mergeBasicFields, hn, hd, hl] <;> (repeat' split) <;> rfl

/-- The scalar-field merge never touches the record's end. -/
theorem mergeBasicFields_end (e : CalendarEvent) (d : PartialEventData) :
    (mergeBasicFields e d).end_ = e.end_ := by
  cases hn : d.name <;> cases hd : d.description <;> cases hl : d.location <;>
    simp only [mergeBasicFields, hn, hd, hl] <;> (repeat' split) <;> rfl

/-- When the record's start is exactly the rebuilt start, the code's
string comparison reports no difference. -/
theorem startDiffers_false_of_eq (e : CalendarEvent) (b : EventDateTimeInfo)
    (h : e.start = some b.start) : startDiffers e b = false := by
  unfold startDiffers
  rw [h]
  simp [Option.bind]

/-- When the record's end is exactly the rebuilt end, the code's string
comparison reports no difference. -/
theorem endDiffers_false_of_eq (e : CalendarEvent) (b : EventDateTimeInfo)
    (h : e.end_ = some b.endPt) : endDiffers e b = false := by
  unfold endDiffers
  rw [h]
  simp [Option.bind]

/-- The start of the date-merged record: the rebuilt start when the start
comparison fires, the incoming copy's start otherwise. -/
theorem mergeDate_start (e m : CalendarEvent) (b : EventDateTimeInfo) :
    (mergeDate e m b).start = if startDiffers e b then some b.start else m.start := by
  unfold mergeDate
  by_cases h1 : startDiffers e b = true <;> by_cases h2 : endDiffers e b = true <;>
    simp [h1, h2]

/-- The end of the date-merged record: the rebuilt end when either
comparison fires (the start branch also writes the end), the incoming
copy's end otherwise. -/
theorem mergeDate_end (e m : CalendarEvent) (b : EventDateTimeInfo) :
    (mergeDate e m b).end_ =
      if startDiffers e b || endDiffers e b then some b.endPt else m.end_ := by
  unfold mergeDate
  by_cases h1 : startDiffers e b = true <;> by_cases h2 : endDiffers e b = true <;>
    simp [h1, h2]

/-- Shape of a no-move update run whose sparse set contains a date: one
fetch, then one update call whose payload is the scalar merge followed by
the date merge. -/
theorem updateEvent_date_branch (gc : GC) (fromCal evId : String)
    (data : PartialEventData) (e : CalendarEvent) (di : TanaDateInfo)
    (b : EventDateTimeInfo) (fields : List FieldSpec)
    (hget : gc.getEvent fromCal evId = some e)
    (hdate : data.date = some di)
    (hbuild : buildEventDateTimeInfo di (jsTimeZone data.timeZone) = Except.ok b) :
    updateEvent gc fromCal evId data fields none =
      (Except.ok (buildTanaPaste
          (gc.updateEvent fromCal evId (mergeDate e (mergeBasicFields e data) b))
          fromCal fields),
       [CalCall.get fromCal evId,
        CalCall.update fromCal evId (mergeDate e (mergeBasicFields e data) b)]) := by
  simp [updateEvent, hget, hdate, hbuild]

/-- Shape of a no-move update run whose sparse set is non-empty but has
no date: one fetch, then one update call submitting the scalar merge. -/
theorem updateEvent_nodate_branch (gc : GC) (fromCal evId : String)
    (data : PartialEventData) (e : CalendarEvent) (fields : List FieldSpec)
    (hget : gc.getEvent fromCal evId = some e)
    (hdate : data.date = none)
    (hfields : (data.name.isSome || data.date.isSome || data.description.isSome ||
      data.timeZone.isSome || data.location.isSome) = true) :
    updateEvent gc fromCal evId data fields none =
      (Except.ok (buildTanaPaste (gc.updateEvent fromCal evId (mergeBasicFields e data))
          fromCal fields),
       [CalCall.get fromCal evId,
        CalCall.update fromCal evId (mergeBasicFields e data)]) := by
  simp [updateEvent, hget, hdate, hfields]
  intro h1 h2 h3 h4
  simp [h1, h2, h3, h4, hdate] at hfields

def c1Event : CalendarEvent :=
  { id := some "abc", htmlLink := some "", summary := none, description := none,
    location := none, start := none, end_ := none }

def c1Fields : List FieldSpec :=
  [{ field := "Event ID", property := "id" },
   { field := "Event URL", property := "htmlLink" }]

/-- C1: serializing the selection `[Event ID ↦ id, Event URL ↦ htmlLink]`
over a record with `id = "abc"` and `htmlLink = ""` does NOT yield
`"Event ID::abc"`: the code appends the newline based on the field's
position in the selection list, so the omitted last field leaves a
trailing newline and the output is `"Event ID::abc\n"`. -/
theorem buildTanaPaste_trailing_newline_bug :
    buildTanaPaste c1Event "cal-1" c1Fields = "Event ID::abc\n" ∧
    "Event ID::abc\n" ≠ "Event ID::abc" := by
  refine ⟨by decide, by decide⟩

/-- C7: when the fetch from the source calendar reports no record, the
update operation fails with the not-found error and the fetch is the only
collaborator call — no move and no update reaches the calendar. -/
theorem updateEvent_not_found_aborts (gc : GC) (fromCal evId : String)
    (data : PartialEventData) (fields : List FieldSpec) (toCal : Option String)
    (hget : gc.getEvent fromCal evId = none) :
    updateEvent gc fromCal evId data fields toCal =
      (Except.error ("Event not found: " ++ evId), [CalCall.get fromCal evId]) := by
  unfold updateEvent
  rw [hget]

def w7GC : GC :=
  { getEvent := fun _ _ => none,
    moveEventToAnotherCalendar := fun _ _ _ => c1Event,
    updateEvent := fun _ _ p => p }

/-- Witness for C7 at a concrete collaborator that knows no events. -/
theorem updateEvent_not_found_aborts_witness :
    updateEvent w7GC "cal-a" "ev-9" emptyPartialEventData c1Fields (some "cal-b") =
      (Except.error ("Event not found: " ++ "ev-9"), [CalCall.get "cal-a" "ev-9"]) :=
  updateEvent_not_found_aborts w7GC "cal-a" "ev-9" emptyPartialEventData c1Fields
    (some "cal-b") rfl

/-- C8: with an empty sparse field set and no destination calendar (or a
destination equal to the source), the only collaborator call is the
fetch, and the operation returns the serialized output over the fetched
record. -/
theorem updateEvent_empty_fields_no_write (gc : GC) (fromCal evId : String)
    (fields : List FieldSpec) (e : CalendarEvent) (toCal : Option String)
    (hget : gc.getEvent fromCal evId = some e)
    (htc : toCal = none ∨ toCal = some fromCal) :
    updateEvent gc fromCal evId emptyPartialEventData fields toCal =
      (Except.ok (buildTanaPaste e fromCal fields), [CalCall.get fromCal evId]) := by
  rcases htc with h | h <;> subst h <;>
    simp [updateEvent, hget, emptyPartialEventData]

def w8Event : CalendarEvent :=
  { id := some "ev-1", htmlLink := some "https://cal.example/ev-1",
    summary := some "Standup", description := none, location := none,
    start := none, end_ := none }

def w8GC : GC :=
  { getEvent := fun _ _ => some w8Event,
    moveEventToAnotherCalendar := fun _ _ _ => w8Event,
    updateEvent := fun _ _ p => p }

/-- Witness for C8 at a concrete collaborator and record. -/
theorem updateEvent_empty_fields_no_write_witness :
    updateEvent w8GC "cal-a" "ev-1" emptyPartialEventData c1Fields none =
      (Except.ok (buildTanaPaste w8Event "cal-a" c1Fields), [CalCall.get "cal-a" "ev-1"]) :=
  updateEvent_empty_fields_no_write w8GC "cal-a" "ev-1" c1Fields w8Event none rfl
    (Or.inl rfl)

/-- C2: in the no-move partial-update merge with a supplied date, the
update call submits the scalar-plus-date merge, the rebuilt start lands in
the submitted record only if it differs from the fetched start, the
rebuilt end lands only if it differs from the fetched end, and whenever
exactly one endpoint's value changed the other endpoint of the submitted
record equals the fetched record's original endpoint. -/
theorem updateEvent_endpoint_substitution (gc : GC) (fromCal evId : String)
    (data : PartialEventData) (e : CalendarEvent) (di : TanaDateInfo)
    (b : EventDateTimeInfo) (fields : List FieldSpec)
    (hget : gc.getEvent fromCal evId = some e)
    (hdate : data.date = some di)
    (hbuild : buildEventDateTimeInfo di (jsTimeZone data.timeZone) = Except.ok b) :
    (updateEvent gc fromCal evId data fields none).2 =
      [CalCall.get fromCal evId,
       CalCall.update fromCal evId (mergeDate e (mergeBasicFields e data) b)] ∧
    ((mergeDate e (mergeBasicFields e data) b).start ≠ e.start →
      some b.start ≠ e.start) ∧
    ((mergeDate e (mergeBasicFields e data) b).end_ ≠ e.end_ →
      some b.endPt ≠ e.end_) ∧
    (some b.start ≠ e.start → some b.endPt = e.end_ →
      (mergeDate e (mergeBasicFields e data) b).end_ = e.end_) ∧
    (some b.start = e.start → some b.endPt ≠ e.end_ →
      (mergeDate e (mergeBasicFields e data) b).start = e.start) := by
  refine ⟨?_, ?_, ?_, ?_, ?_⟩
  · rw [updateEvent_date_branch gc fromCal evId data e di b fields hget hdate hbuild]
  · intro hne
    rw [mergeDate_start, mergeBasicFields_start] at hne
    by_cases hsd : startDiffers e b = true
    · rwa [if_pos hsd] at hne
    · rw [if_neg hsd] at hne
      exact absurd rfl hne
  · intro hne
    rw [mergeDate_end, mergeBasicFields_end] at hne
    by_cases hor : (startDiffers e b || endDiffers e b) = true
    · rwa [if_pos hor] at hne
    · rw [if_neg hor] at hne
      exact absurd rfl hne
  · intro _ hee
    rw [mergeDate_end, mergeBasicFields_end]
    split
    · exact hee
    · rfl
  · intro hse _
    simp [mergeDate_start, mergeBasicFields_start, startDiffers_false_of_eq e b hse.symm]

def w2Event : CalendarEvent :=
  { id := some "ev-2", htmlLink := some "https://cal.example/ev-2",
    summary := some "Planning", description := none, location := none,
    start := some { date := none, dateTime := some "2025-01-01T09:00:00",
                    timeZone := some "Etc/UTC" },
    end_ := some { date := none, dateTime := some "2025-01-02T08:00:00",
                   timeZone := some "Etc/UTC" } }

def w2GC : GC :=
  { getEvent := fun _ _ => some w2Event,
    moveEventToAnotherCalendar := fun _ _ _ => w2Event,
    updateEvent := fun _ _ p => p }

def w2Di : TanaDateInfo :=
  { original := "[[date:2025-01-01T10:00/2025-01-02T08:00]]",
    start := "2025-01-01T10:00", endTok := some "2025-01-02T08:00" }

def w2Data : PartialEventData :=
  { name := none, date := some w2Di, description := none, timeZone := none,
    location := none }

def w2Built : EventDateTimeInfo :=
  { start := { date := none, dateTime := some "2025-01-01T10:00:00",
               timeZone := some "Etc/UTC" },
    endPt := { date := none, dateTime := some "2025-01-02T08:00:00",
               timeZone := some "Etc/UTC" } }

/-- Witness for C2 at a concrete collaborator, record and incoming date. -/
theorem updateEvent_endpoint_substitution_witness :
    (updateEvent w2GC "cal-a" "ev-2" w2Data c1Fields none).2 =
      [CalCall.get "cal-a" "ev-2",
       CalCall.update "cal-a" "ev-2"
         (mergeDate w2Event (mergeBasicFields w2Event w2Data) w2Built)] ∧
    (mergeDate w2Event (mergeBasicFields w2Event w2Data) w2Built).end_ = w2Event.end_ :=
  ⟨(updateEvent_endpoint_substitution w2GC "cal-a" "ev-2" w2Data w2Event w2Di w2Built
      c1Fields rfl rfl rfl).1,
   (updateEvent_endpoint_substitution w2GC "cal-a" "ev-2" w2Data w2Event w2Di w2Built
      c1Fields rfl rfl rfl).2.2.2.1 (by decide) (by decide)⟩

/-- The sparse field set carrying only a new name. -/
def nameOnly (n : String) : PartialEventData :=
  { name := some n, date := none, description := none, timeZone := none,
    location := none }

/-- C9: an update whose sparse field set contains only a new name submits
a merged record whose start, end, location and description are those of
the fetched record, and whose title is the new name. -/
theorem updateEvent_name_only_frame (gc : GC) (fromCal evId n : String)
    (e : CalendarEvent) (fields : List FieldSpec)
    (hget : gc.getEvent fromCal evId = some e) :
    (updateEvent gc fromCal evId (nameOnly n) fields none).2 =
      [CalCall.get fromCal evId,
       CalCall.update fromCal evId (mergeBasicFields e (nameOnly n))] ∧
    (mergeBasicFields e (nameOnly n)).start = e.start ∧
    (mergeBasicFields e (nameOnly n)).end_ = e.end_ ∧
    (mergeBasicFields e (nameOnly n)).location = e.location ∧
    (mergeBasicFields e (nameOnly n)).description = e.description ∧
    (mergeBasicFields e (nameOnly n)).summary = some n := by
  have hred : mergeBasicFields e (nameOnly n) =
      if (some n : Option String) ≠ e.summary then { e with summary := some n }
      else e := rfl
  have htrace := updateEvent_nodate_branch gc fromCal evId (nameOnly n) e fields
    hget rfl (by simp [nameOnly])
  refine ⟨by rw [htrace], ?_, ?_, ?_, ?_, ?_⟩ <;> rw [hred] <;>
    by_cases hs : (some n : Option String) ≠ e.summary
  · rw [if_pos hs]
  · rw [if_neg hs]
  · rw [if_pos hs]
  · rw [if_neg hs]
  · rw [if_pos hs]
  · rw [if_neg hs]
  · rw [if_pos hs]
  · rw [if_neg hs]
  · rw [if_pos hs]
  · rw [if_neg hs]
    exact (not_ne_iff.mp hs).symm

/-- Witness for C9 at a concrete collaborator and record. -/
theorem updateEvent_name_only_frame_witness :
    (updateEvent w8GC "cal-a" "ev-1" (nameOnly "Weekly sync") c1Fields none).2 =
      [CalCall.get "cal-a" "ev-1",
       CalCall.update "cal-a" "ev-1" (mergeBasicFields w8Event (nameOnly "Weekly sync"))] ∧
    (mergeBasicFields w8Event (nameOnly "Weekly sync")).start = w8Event.start ∧
    (mergeBasicFields w8Event (nameOnly "Weekly sync")).end_ = w8Event.end_ ∧
    (mergeBasicFields w8Event (nameOnly "Weekly sync")).location = w8Event.location ∧
    (mergeBasicFields w8Event (nameOnly "Weekly sync")).description = w8Event.description ∧
    (mergeBasicFields w8Event (nameOnly "Weekly sync")).summary = some "Weekly sync" :=
  updateEvent_name_only_frame w8GC "cal-a" "ev-1" "Weekly sync" w8Event c1Fields rfl

/-- C10: the date-merge decision compares only the `dateTime` and `date`
strings of the rebuilt points against the fetched record's points, never
the timezone: when the rebuilt strings all coincide with the fetched ones
and only the timezone differs, the submitted record keeps the fetched
record's original start and end. -/
theorem updateEvent_timezone_only_ignored (gc : GC) (fromCal evId : String)
    (data : PartialEventData) (e : CalendarEvent) (di : TanaDateInfo)
    (b : EventDateTimeInfo) (fields : List FieldSpec)
    (hget : gc.getEvent fromCal evId = some e)
    (hdate : data.date = some di)
    (hbuild : buildEventDateTimeInfo di (jsTimeZone data.timeZone) = Except.ok b)
    (hs1 : b.start.dateTime = e.start.bind EventDateTime.dateTime)
    (hs2 : b.start.date = e.start.bind EventDateTime.date)
    (he1 : b.endPt.dateTime = e.end_.bind EventDateTime.dateTime)
    (he2 : b.endPt.date = e.end_.bind EventDateTime.date)
    (_htz : b.start.timeZone ≠ e.start.bind EventDateTime.timeZone) :
    (updateEvent gc fromCal evId data fields none).2 =
      [CalCall.get fromCal evId,
       CalCall.update fromCal evId (mergeDate e (mergeBasicFields e data) b)] ∧
    (mergeDate e (mergeBasicFields e data) b).start = e.start ∧
    (mergeDate e (mergeBasicFields e data) b).end_ = e.end_ := by
  have hsd : startDiffers e b = false := by
    unfold startDiffers
    rw [hs1, hs2]
    simp
  have hed : endDiffers e b = false := by
    unfold endDiffers
    rw [he1, he2]
    simp
  refine ⟨?_, ?_, ?_⟩
  · rw [updateEvent_date_branch gc fromCal evId data e di b fields hget hdate hbuild]
  · simp [mergeDate_start, mergeBasicFields_start, hsd]
  · simp [mergeDate_end, mergeBasicFields_end, hsd, hed]

def w10Event : CalendarEvent :=
  { id := some "ev-3", htmlLink := some "https://cal.example/ev-3",
    summary := some "Review", description := none, location := none,
    start := some { date := none, dateTime := some "2025-01-01T09:00:00",
                    timeZone := some "America/New_York" },
    end_ := some { date := none, dateTime := some "2025-01-02T09:00:00",
                   timeZone := some "America/New_York" } }

def w10GC : GC :=
  { getEvent := fun _ _ => some w10Event,
    moveEventToAnotherCalendar := fun _ _ _ => w10Event,
    updateEvent := fun _ _ p => p }

def w10Di : TanaDateInfo :=
  { original := "[[date:2025-01-01T09:00/2025-01-02T09:00]]",
    start := "2025-01-01T09:00", endTok := some "2025-01-02T09:00" }

def w10Data : PartialEventData :=
  { name := none, date := some w10Di, description := none, timeZone := none,
    location := none }

def w10Built : EventDateTimeInfo :=
  { start := { date := none, dateTime := some "2025-01-01T09:00:00",
               timeZone := some "Etc/UTC" },
    endPt := { date := none, dateTime := some "2025-01-02T09:00:00",
               timeZone := some "Etc/UTC" } }

/-- Witness for C10: same date/time strings, timezone changed from
America/New_York to the default Etc/UTC — the submitted record keeps the
fetched endpoints. -/
theorem updateEvent_timezone_only_ignored_witness :
    (updateEvent w10GC "cal-a" "ev-3" w10Data c1Fields none).2 =
      [CalCall.get "cal-a" "ev-3",
       CalCall.update "cal-a" "ev-3"
         (mergeDate w10Event (mergeBasicFields w10Event w10Data) w10Built)] ∧
    (mergeDate w10Event (mergeBasicFields w10Event w10Data) w10Built).start = w10Event.start ∧
    (mergeDate w10Event (mergeBasicFields w10Event w10Data) w10Built).end_ = w10Event.end_ :=
  updateEvent_timezone_only_ignored w10GC "cal-a" "ev-3" w10Data w10Event w10Di w10Built
    c1Fields rfl rfl rfl (by decide) (by decide) (by decide) (by decide) (by decide)


/-- A successful anchored-regex match implies the prefix and suffix
checks that the source performs beforehand. -/
theorem tanaMatchContent_startsEnds (v c : String)
    (h : tanaMatchContent v = some c) :
    strStartsWith v "[[date:" = true ∧ strEndsWith v "]]" = true := by
  unfold tanaMatchContent at h
  split at h
  · next hcond => exact ⟨hcond.1, hcond.2.1⟩
  · exact Option.noConfusion h

/-- A content containing a slash is not all-whitespace, so the source's
trim check passes on it. -/
theorem jsTrimNonempty_of_contains_slash (c : String)
    (h : c.data.contains '/' = true) : jsTrimNonempty c = true := by
  have hm : '/' ∈ c.data := by simpa using h
  exact List.any_eq_true.mpr ⟨'/', hm, by decide⟩

/-- Acceptance characterization of recognize on slash-containing
contents: the first two slash-separated segments must be non-empty and
each must match one of the two token patterns. -/
theorem validate_range_iff (v c : String)
    (hm : tanaMatchContent v = some c) (hs : c.data.contains '/' = true) :
    (validateTanaDateValue v = true ↔
      ((splitSlash c).getD 0 "" ≠ "" ∧ (splitSlash c).getD 1 "" ≠ "" ∧
       tokenValid ((splitSlash c).getD 0 "") = true ∧
       tokenValid ((splitSlash c).getD 1 "") = true)) := by
  obtain ⟨h1, h2⟩ := tanaMatchContent_startsEnds v c hm
  have ht := jsTrimNonempty_of_contains_slash c hs
  have hs2 : '/' ∈ c.data := by simpa using hs
  unfold validateTanaDateValue
  rw [h1, h2, hm]
  simp [tokenValid, ht, hs2, and_assoc]

/-- Acceptance characterization of recognize on slash-free contents: the
trimmed content must be non-empty and the whole content must match one of
the two token patterns. -/
theorem validate_single_iff (v c : String)
    (hm : tanaMatchContent v = some c) (hs : c.data.contains '/' = false) :
    (validateTanaDateValue v = true ↔
      (jsTrimNonempty c = true ∧ tokenValid c = true)) := by
  obtain ⟨h1, h2⟩ := tanaMatchContent_startsEnds v c hm
  have hs2 : '/' ∉ c.data := by simpa using hs
  unfold validateTanaDateValue
  rw [h1, h2, hm]
  by_cases ht : jsTrimNonempty c = true <;> simp [ht, hs2, tokenValid]

/-- Recognize rejects every input on which the anchored regex fails. -/
theorem validate_false_of_no_match (v : String)
    (hm : tanaMatchContent v = none) : validateTanaDateValue v = false := by
  unfold validateTanaDateValue
  rw [hm]
  split
  · rfl
  · rfl

/-- C3 counterexample: a bracket content with two slashes whose first two
slash-separated segments are dates is ACCEPTED by recognize — the part
after the first slash (`2025-06-19/2025-06-20`) matches neither token
pattern, so under the claim's reading the input would have to be
rejected. -/
theorem validate_multi_slash_accepted_counterexample :
    validateTanaDateValue "[[date:2025-06-18/2025-06-19/2025-06-20]]" = true ∧
    tokenValid "2025-06-19/2025-06-20" = false := by
  refine ⟨by decide, by decide⟩

/-- C3 (amended): on a content containing a slash, recognize splits on
every slash and inspects only the first two segments — it rejects when
either of the two is empty and otherwise accepts exactly when both match
a token pattern; segments after the second slash are ignored. -/
theorem validate_range_checks_first_two_segments (v c : String)
    (hm : tanaMatchContent v = some c) (hs : c.data.contains '/' = true) :
    (validateTanaDateValue v = true ↔
      ((splitSlash c).getD 0 "" ≠ "" ∧ (splitSlash c).getD 1 "" ≠ "" ∧
       tokenValid ((splitSlash c).getD 0 "") = true ∧
       tokenValid ((splitSlash c).getD 1 "") = true)) :=
  validate_range_iff v c hm hs

/-- Witness for the amended C3 at the two-slash input: acceptance follows
from the two leading segments alone; the third segment plays no role. -/
theorem validate_range_checks_first_two_segments_witness :
    validateTanaDateValue "[[date:2025-06-18/2025-06-19/2025-06-20]]" = true ↔
      ((splitSlash "2025-06-18/2025-06-19/2025-06-20").getD 0 "" ≠ "" ∧
       (splitSlash "2025-06-18/2025-06-19/2025-06-20").getD 1 "" ≠ "" ∧
       tokenValid ((splitSlash "2025-06-18/2025-06-19/2025-06-20").getD 0 "") = true ∧
       tokenValid ((splitSlash "2025-06-18/2025-06-19/2025-06-20").getD 1 "") = true) :=
  validate_range_checks_first_two_segments "[[date:2025-06-18/2025-06-19/2025-06-20]]"
    "2025-06-18/2025-06-19/2025-06-20" (by decide) (by decide)

/-- The claim's reading of the token rule: every slash-separated part of
the content (or the whole content when no slash occurs) must match one of
the two token patterns. -/
def specAllPartsValid (content : String) : Bool :=
  if content.data.contains '/' then
    (splitSlash content).all (fun p => tokenValid p)
  else tokenValid content

/-- C4 counterexample: `[[date:2025-06-18/2025-06-19/x]]` has the literal
prefix and suffix, non-empty content, and a slash-separated part `x` that
matches neither pattern — yet recognize ACCEPTS it, refuting the claimed
"accepts iff every token matches" characterization. -/
theorem validate_ignores_later_segments_counterexample :
    validateTanaDateValue "[[date:2025-06-18/2025-06-19/x]]" = true ∧
    tanaMatchContent "[[date:2025-06-18/2025-06-19/x]]" =
      some "2025-06-18/2025-06-19/x" ∧
    specAllPartsValid "2025-06-18/2025-06-19/x" = false := by
  refine ⟨by decide, by decide, by decide⟩

/-- The claim amended to the code's split behavior: recognize accepts iff
the anchored-regex match succeeds (literal prefix and suffix around a
non-empty content), the content is non-empty after trimming, and either
the whole content (no slash) matches a token pattern, or the first two
slash-separated segments are non-empty and each matches a token pattern. -/
def specRecognizeAmended (value : String) : Bool :=
  match tanaMatchContent value with
  | none => false
  | some content =>
    jsTrimNonempty content &&
    (if content.data.contains '/' then
      (!((splitSlash content).getD 0 "" == "")) &&
      (!((splitSlash content).getD 1 "" == "")) &&
      (tokenValid ((splitSlash content).getD 0 "") &&
       tokenValid ((splitSlash content).getD 1 ""))
     else tokenValid content)

/-- C4 (amended): recognize coincides with the amended characterization
on every input string. -/
theorem validateTanaDateValue_iff_amended (v : String) :
    validateTanaDateValue v = specRecognizeAmended v := by
  rw [Bool.eq_iff_iff]
  unfold specRecognizeAmended
  cases hm : tanaMatchContent v with
  | none =>
    rw [validate_false_of_no_match v hm]
  | some c =>
    cases hsl : c.data.contains '/' with
    | true =>
      rw [validate_range_iff v c hm hsl]
      have ht := jsTrimNonempty_of_contains_slash c hsl
      have hs2 : '/' ∈ c.data := by simpa using hsl
      simp [hs2, ht, and_assoc]
    | false =>
      rw [validate_single_iff v c hm hsl]
      have hs2 : '/' ∉ c.data := by simpa using hsl
      simp [hs2]

/-- C5: the time builder maps a date-time token to a timed point (token
plus literal ":00" seconds suffix, supplied timezone attached), maps a
date-only token to an all-day point (token as date, timezone attached),
reuses the start point when the end token is absent, and on the concrete
round trips `[[date:2025-06-18]]` and `[[date:2025-06-18T08:00/2025-06-19]]`
produces respectively two equal all-day points and a timed start with an
all-day end. -/
theorem timeBuilder_token_mapping (tz s : String) (di : TanaDateInfo) :
    (TANA_DATE_TIME_REGEX_test s = true →
      createEventDateTime tz s =
        Except.ok { date := none, dateTime := some (s ++ ":00"), timeZone := some tz }) ∧
    (TANA_DATE_REGEX_test s = true →
      createEventDateTime tz s =
        Except.ok { date := some s, dateTime := none, timeZone := some tz }) ∧
    (di.endTok = none →
      buildEventDateTimeInfo di tz =
        (createEventDateTime tz di.start).map (fun st => { start := st, endPt := st })) ∧
    buildEventDateTimeInfo (extractTanaDateInfo "[[date:2025-06-18]]") "Etc/UTC" =
      Except.ok
        { start := { date := some "2025-06-18", dateTime := none, timeZone := some "Etc/UTC" },
          endPt := { date := some "2025-06-18", dateTime := none, timeZone := some "Etc/UTC" } } ∧
    buildEventDateTimeInfo (extractTanaDateInfo "[[date:2025-06-18T08:00/2025-06-19]]")
        "Etc/UTC" =
      Except.ok
        { start := { date := none, dateTime := some "2025-06-18T08:00:00",
                     timeZone := some "Etc/UTC" },
          endPt := { date := some "2025-06-19", dateTime := none,
                     timeZone := some "Etc/UTC" } } := by
  refine ⟨?_, ?_, ?_, rfl, rfl⟩
  · intro h
    unfold createEventDateTime
    simp [h]
  · intro h
    unfold createEventDateTime
    rw [dateOnly_not_dateTime s h]
    simp [h]
  · intro h
    unfold buildEventDateTimeInfo
    cases hc : createEventDateTime tz di.start <;> simp [h, hc, Except.map]

/-- Witness for C5: the date-time token mapping at a concrete token and
timezone. -/
theorem timeBuilder_token_mapping_witness :
    createEventDateTime "Etc/UTC" "2025-06-18T08:00" =
      Except.ok { date := none, dateTime := some ("2025-06-18T08:00" ++ ":00"),
                  timeZone := some "Etc/UTC" } :=
  (timeBuilder_token_mapping "Etc/UTC" "2025-06-18T08:00"
    { original := "", start := "", endTok := none }).1 (by decide)

/-- C6 counterexample: decompose on `[[date:2025-06-18/]]` yields an end
token that is the empty string; the empty string matches neither token
pattern, yet the time builder does not fail on it — it silently reuses
the start point as the end point, producing a successful result. -/
theorem timeBuilder_empty_end_token_counterexample :
    tokenValid "" = false ∧
    (extractTanaDateInfo "[[date:2025-06-18/]]").endTok = some "" ∧
    buildEventDateTimeInfo (extractTanaDateInfo "[[date:2025-06-18/]]") "Etc/UTC" =
      Except.ok
        { start := { date := some "2025-06-18", dateTime := none, timeZone := some "Etc/UTC" },
          endPt := { date := some "2025-06-18", dateTime := none, timeZone := some "Etc/UTC" } } := by
  refine ⟨by decide, by decide, rfl⟩

/-- C6 (amended): every token the builder actually converts that matches
neither pattern raises the internal-consistency error naming the value —
the start token always, and a non-empty end token once the start token is
valid; an empty end token is instead treated as absent (the end point
reuses the start point). -/
theorem timeBuilder_invalid_token_error (di : TanaDateInfo) (tz : String) :
    (tokenValid di.start = false →
      buildEventDateTimeInfo di tz =
        Except.error ("Invalid date/time format: " ++ di.start)) ∧
    (∀ e, tokenValid di.start = true → di.endTok = some e → e ≠ "" →
      tokenValid e = false →
      buildEventDateTimeInfo di tz =
        Except.error ("Invalid date/time format: " ++ e)) := by
  constructor
  · intro h
    unfold buildEventDateTimeInfo
    rw [createEventDateTime_error_of_invalid tz di.start h]
  · intro e hstart hend hne hbad
    obtain ⟨st, hok⟩ := createEventDateTime_ok_of_valid tz di.start hstart
    unfold buildEventDateTimeInfo
    rw [hok, hend]
    simp only [if_pos hne, createEventDateTime_error_of_invalid tz e hbad]

/-- Witness for the amended C6: the builder fails on a start token that
matches neither pattern, and on a non-empty invalid end token after a
valid start token. -/
theorem timeBuilder_invalid_token_error_witness :
    buildEventDateTimeInfo
        { original := "[[date:garbage]]", start := "garbage", endTok := none }
        "Etc/UTC" =
      Except.error ("Invalid date/time format: " ++ "garbage") ∧
    buildEventDateTimeInfo
        { original := "[[date:2025-06-18/2025-06-32x]]", start := "2025-06-18",
          endTok := some "2025-06-32x" }
        "Etc/UTC" =
      Except.error ("Invalid date/time format: " ++ "2025-06-32x") :=
  ⟨(timeBuilder_invalid_token_error
      { original := "[[date:garbage]]", start := "garbage", endTok := none }
      "Etc/UTC").1 (by decide),
   (timeBuilder_invalid_token_error
      { original := "[[date:2025-06-18/2025-06-32x]]", start := "2025-06-18",
        endTok := some "2025-06-32x" }
      "Etc/UTC").2 "2025-06-32x" (by decide) rfl (by decide) (by decide)⟩
